import Mathlib

/-!
Verification of the fresh-water recovery simulation (`model.py`) and the
monitoring endpoints (`app.py`) of the reuse-of-freshwater repository.

Modelling conventions:
* Python numbers (ints and floats) are embedded as rationals `ℚ`; the
  arithmetic of the simulation is exact over `ℚ`.
* The process-global `random` module is embedded as explicit state
  `RNGState = (seed, number of gauss draws so far)`, together with an
  abstract family `g : ℕ → ℕ → ℚ` giving the value of the k-th
  `random.gauss(1.0, 0.15)` draw after seeding with a given seed.
  `random.seed(42)` overwrites the state with `(42, 0)`.
* Fallible Python code is embedded with `Option`/`Except`: the unguarded
  float division `total_supply / total_demand` in `simulate` raises
  `ZeroDivisionError` when `total_demand = 0`, embedded as `none`.
* Python `round(x, n)` is banker's rounding, embedded exactly on `ℚ`.
-/

namespace FreshWater

/-- The `MONTHLY_RAINFALL` dictionary of `model.py` (mm/day per month 1..12). -/
def MONTHLY_RAINFALL : ℕ → ℚ
  | 1 => 12/10 | 2 => 8/10 | 3 => 1 | 4 => 21/10 | 5 => 35/10 | 6 => 42/10
  | 7 => 58/10 | 8 => 61/10 | 9 => 73/10 | 10 => 85/10 | 11 => 92/10 | 12 => 41/10
  | _ => 0

/-- State of the process-global `random` generator: the seed it was last
seeded with, and how many gauss draws have been consumed since. -/
abbrev RNGState := ℕ × ℕ

/-- One `random.gauss(1.0, 0.15)` call: returns the next value of the
abstract seeded stream `g` and advances the global state. -/
def gaussDraw (g : ℕ → ℕ → ℚ) (s : RNGState) : ℚ × RNGState :=
  (g s.1 s.2, (s.1, s.2 + 1))

/-- `min(12, max(1, (day_of_year // 30) + 1))` from `get_monthly_rainfall`. -/
def month_of_day (day_of_year : ℕ) : ℕ :=
  min 12 (max 1 (day_of_year / 30 + 1))

/-- `get_monthly_rainfall` of `model.py`: seasonal factor times a gauss
noise draw from the global generator, clamped at 0. -/
def get_monthly_rainfall (g : ℕ → ℕ → ℚ) (day_of_year : ℕ) (base : ℚ)
    (s : RNGState) : ℚ × RNGState :=
  let month := month_of_day day_of_year
  let factor := MONTHLY_RAINFALL month / 5
  let ns := gaussDraw g s
  (max 0 (base * factor * ns.1), ns.2)

/-- `calculate_rainwater` of `model.py`. -/
def calculate_rainwater (rainfall_mm area_m2 rc : ℚ) : ℚ :=
  rainfall_mm * area_m2 * rc

/-- `calculate_greywater` of `model.py`. -/
def calculate_greywater (hh daily_use_L gw_frac gw_rec : ℚ) : ℚ :=
  hh * daily_use_L * gw_frac * gw_rec

/-- `apply_treatment` of `model.py`. -/
def apply_treatment (raw_litres efficiency : ℚ) : ℚ :=
  raw_litres * efficiency

/-- The configuration dictionary consumed by `simulate` (keys of `CONFIG`). -/
structure Config where
  catchment_area_m2 : ℚ
  rainfall_mm_per_day : ℚ
  runoff_coefficient : ℚ
  household_size : ℚ
  daily_water_use_L : ℚ
  greywater_fraction : ℚ
  greywater_recovery_rate : ℚ
  treatment_efficiency : ℚ
  storage_capacity_L : ℚ
  cost_per_litre_INR : ℚ
  simulation_days : ℕ
deriving DecidableEq

/-- The documented domain of a SimulationConfig (spec section 3):
non-negative area/base-rainfall/counts/capacity/cost, fractional fields in
[0,1], at least one day. -/
def ValidConfig (c : Config) : Prop :=
  0 ≤ c.catchment_area_m2 ∧ 0 ≤ c.rainfall_mm_per_day ∧
  0 ≤ c.runoff_coefficient ∧ c.runoff_coefficient ≤ 1 ∧
  0 ≤ c.household_size ∧ 0 ≤ c.daily_water_use_L ∧
  0 ≤ c.greywater_fraction ∧ c.greywater_fraction ≤ 1 ∧
  0 ≤ c.greywater_recovery_rate ∧ c.greywater_recovery_rate ≤ 1 ∧
  0 ≤ c.treatment_efficiency ∧ c.treatment_efficiency ≤ 1 ∧
  0 ≤ c.storage_capacity_L ∧ 0 ≤ c.cost_per_litre_INR ∧
  1 ≤ c.simulation_days

instance (c : Config) : Decidable (ValidConfig c) := by
  unfold ValidConfig; infer_instance

/-- One entry of `daily_log` in `simulate`. -/
structure DayRec where
  day : ℕ
  rainfall_L : ℚ
  greywater_L : ℚ
  treated_L : ℚ
  storage_L : ℚ
  deficit_L : ℚ
deriving DecidableEq

/-- Result of one day of storage dynamics (lines 83-90 of `model.py`):
the post-withdrawal storage, today's deficit, and the amount added to the
cumulative overflow. -/
structure TankStep where
  storage_after : ℚ
  deficit_today : ℚ
  overflow_add : ℚ
deriving DecidableEq

/-- The storage-dynamics block of the day loop in `simulate`:
add the treated inflow, clamp at capacity (excess goes to overflow),
supply `min(storage, demand)` and record the deficit. -/
def tank_apply_day (cap storage inflow demand : ℚ) : TankStep :=
  let storage1 := storage + inflow
  let storage2 := if storage1 > cap then cap else storage1
  let over := if storage1 > cap then storage1 - cap else 0
  let supply := min storage2 demand
  { storage_after := storage2 - supply
    deficit_today := max 0 (demand - supply)
    overflow_add := over }

/-- The running accumulators of `simulate`'s day loop, plus the global
generator state. -/
structure CoreSt where
  total_rainwater : ℚ
  total_greywater : ℚ
  total_treated : ℚ
  total_demand : ℚ
  total_deficit : ℚ
  total_overflow : ℚ
  storage : ℚ
  rng : RNGState
deriving DecidableEq

/-- One iteration of the day loop of `simulate` (lines 73-108 of
`model.py`), returning the updated accumulators and the appended
`daily_log` record. -/
def stepDay (g : ℕ → ℕ → ℚ) (c : Config) (day : ℕ) (s : CoreSt) :
    CoreSt × DayRec :=
  let rr := get_monthly_rainfall g day c.rainfall_mm_per_day s.rng
  let rain_L := calculate_rainwater rr.1 c.catchment_area_m2 c.runoff_coefficient
  let grey_L := calculate_greywater c.household_size c.daily_water_use_L
      c.greywater_fraction c.greywater_recovery_rate
  let treated := apply_treatment (rain_L + grey_L) c.treatment_efficiency
  let demand := c.household_size * c.daily_water_use_L
  let t := tank_apply_day c.storage_capacity_L s.storage treated demand
  ({ total_rainwater := s.total_rainwater + rain_L
     total_greywater := s.total_greywater + grey_L
     total_treated := s.total_treated + treated
     total_demand := s.total_demand + demand
     total_deficit := s.total_deficit + t.deficit_today
     total_overflow := s.total_overflow + t.overflow_add
     storage := t.storage_after
     rng := rr.2 },
   { day := day, rainfall_L := rain_L, greywater_L := grey_L,
     treated_L := treated, storage_L := t.storage_after,
     deficit_L := t.deficit_today })

/-- `for day in range(d0, d0 + n)`: run `n` consecutive days starting at
day index `d0`, returning the final accumulators and the produced
`daily_log` entries in day order. -/
def runDays (g : ℕ → ℕ → ℚ) (c : Config) : ℕ → ℕ → CoreSt → CoreSt × List DayRec
  | _, 0, s => (s, [])
  | d0, n + 1, s =>
    let p := stepDay g c d0 s
    let q := runDays g c (d0 + 1) n p.1
    (q.1, p.2 :: q.2)

/-- The accumulators at the top of `simulate`: all totals 0, the tank at
30% of capacity, and the generator freshly seeded with 42
(`random.seed(42)`). -/
def initSt (c : Config) : CoreSt :=
  { total_rainwater := 0, total_greywater := 0, total_treated := 0
    total_demand := 0, total_deficit := 0, total_overflow := 0
    storage := c.storage_capacity_L * (30/100), rng := (42, 0) }

/-- Python's banker's rounding of a rational to an integer
(round-half-to-even). -/
def round_half_even (x : ℚ) : ℤ :=
  let f := ⌊x⌋
  let r := x - f
  if r < 1/2 then f
  else if 1/2 < r then f + 1
  else if f % 2 = 0 then f else f + 1

/-- Python `round(x, n)`. -/
def pyRound (x : ℚ) (n : ℕ) : ℚ :=
  (round_half_even (x * 10 ^ n) : ℚ) / 10 ^ n

/-- The dictionary returned by `simulate` (lines 118-131 of `model.py`). -/
structure SimResult where
  total_rainwater_L : ℚ
  total_greywater_L : ℚ
  total_treated_L : ℚ
  total_demand_L : ℚ
  total_deficit_L : ℚ
  total_overflow_L : ℚ
  supply_rate_pct : ℚ
  annual_cost_saved_INR : ℚ
  co2_offset_kg : ℚ
  avg_daily_recovery_L : ℚ
  self_sufficiency_pct : ℚ
  daily_log : List DayRec
deriving DecidableEq

/-- `simulate` of `model.py`. The caller's global generator state is
passed in to make the interaction with shared global randomness explicit:
the body begins with `random.seed(42)` and so never reads it. The first
component is `none` exactly when the unguarded division
`total_supply / total_demand` raises `ZeroDivisionError`; the second
component is the global generator state after the call. -/
def simulate (g : ℕ → ℕ → ℚ) (c : Config) (_rng : RNGState) :
    Option SimResult × RNGState :=
  let p := runDays g c 1 c.simulation_days (initSt c)
  let s := p.1
  if s.total_demand = 0 then
    (none, s.rng)
  else
    let total_supply := s.total_treated
    let supply_rate := total_supply / s.total_demand * 100
    (some { total_rainwater_L := pyRound s.total_rainwater 0
            total_greywater_L := pyRound s.total_greywater 0
            total_treated_L := pyRound s.total_treated 0
            total_demand_L := pyRound s.total_demand 0
            total_deficit_L := pyRound s.total_deficit 0
            total_overflow_L := pyRound s.total_overflow 0
            supply_rate_pct := pyRound supply_rate 1
            annual_cost_saved_INR := pyRound (s.total_treated * c.cost_per_litre_INR) 2
            co2_offset_kg := pyRound (s.total_treated * (1/1000) * (1/2)) 1
            avg_daily_recovery_L := pyRound (s.total_treated / (c.simulation_days : ℚ)) 0
            self_sufficiency_pct := pyRound (min 100 supply_rate) 1
            daily_log := p.2 }, s.rng)

/-- A constant stand-in gauss stream (every draw is 1), used to settle
claims at concrete inputs. -/
def ones : ℕ → ℕ → ℚ := fun _ _ => 1

/-- The scenario configuration of spec section 8, with `days = 30`. -/
def scenarioConfig : Config :=
  { catchment_area_m2 := 500, rainfall_mm_per_day := 80
    runoff_coefficient := 17/20, household_size := 5
    daily_water_use_L := 135, greywater_fraction := 13/20
    greywater_recovery_rate := 3/4, treatment_efficiency := 23/25
    storage_capacity_L := 40000, cost_per_litre_INR := 9/100
    simulation_days := 30 }

/-- The scenario configuration with `household_size = 0` (zero demand). -/
def zeroDemandConfig : Config :=
  { scenarioConfig with household_size := 0 }

/-- The scenario configuration restricted to a single day. -/
def oneDayConfig : Config :=
  { scenarioConfig with simulation_days := 1 }

/-- An out-of-domain configuration: negative catchment area. -/
def invalidConfig : Config :=
  { scenarioConfig with catchment_area_m2 := -500, simulation_days := 1 }

/-- A domain-valid one-day configuration with no inflow at all (zero area,
zero greywater fraction, zero capacity) but nonzero demand; the tank can
supply nothing, so the whole demand becomes deficit. -/
def dryConfig : Config :=
  { catchment_area_m2 := 0, rainfall_mm_per_day := 0
    runoff_coefficient := 17/20, household_size := 5
    daily_water_use_L := 135, greywater_fraction := 0
    greywater_recovery_rate := 3/4, treatment_efficiency := 23/25
    storage_capacity_L := 0, cost_per_litre_INR := 9/100
    simulation_days := 1 }

/-- Per-day tank invariant along a log, threaded with the storage level
before each day: conservation `storage_after + supply ≤ storage_before +
treated` (with `supply = demand - deficit`) and `0 ≤ storage_after ≤
capacity`. -/
def ChainInv (c : Config) : ℚ → List DayRec → Prop
  | _, [] => True
  | prev, r :: rest =>
    (r.storage_L + (c.household_size * c.daily_water_use_L - r.deficit_L)
        ≤ prev + r.treated_L
      ∧ 0 ≤ r.storage_L ∧ r.storage_L ≤ c.storage_capacity_L)
    ∧ ChainInv c r.storage_L rest

/-- The month-selection formula in the words of the spec (section 4.1):
`clamp(1, 12, floor((day_of_year - 1) / 30) + 1)`. Stated only to be
compared with `month_of_day`, which is translated from the source. -/
def specMonth (day_of_year : ℕ) : ℕ :=
  min 12 (max 1 ((day_of_year - 1) / 30 + 1))

/-- The three classification labels (`LABELS` of the classifier module). -/
inductive QLabel where
  | safeForReuse
  | needsTreatment
  | notSafe
deriving DecidableEq

/-- A successful classification: label, confidence, and the three per-class
probabilities. -/
structure Classification where
  label : QLabel
  confidence : ℚ
  probSafe : ℚ
  probTreat : ℚ
  probBad : ℚ
deriving DecidableEq

/-- The two distinguishable error outcomes of the prediction endpoints:
the `except`-caught `ValueError` from `float(...)`, and the error result
returned by the classifier for out-of-range input. -/
inductive PredictError where
  | valueError
  | outOfRange
deriving DecidableEq

/-- Modelled from the spec: `water_model.predict` (the classifier module
imported by `app.py` is absent from `src/`). Per spec section 6 it returns
a label, confidence and per-class probabilities for in-range input, and an
error result for out-of-documented-range input. The documented ranges are
the feature ranges of `train_model.py`: pH 0-14, turbidity 0-100 NTU,
temperature 0-40 C, TDS 0-1000 mg/L. The in-range classification itself is
an opaque parameter `cls`. -/
def water_model_predict (cls : ℚ → ℚ → ℚ → ℚ → Classification)
    (ph tb tp tds : ℚ) : Except PredictError Classification :=
  if 0 ≤ ph ∧ ph ≤ 14 ∧ 0 ≤ tb ∧ tb ≤ 100 ∧ 0 ≤ tp ∧ tp ≤ 40
      ∧ 0 ≤ tds ∧ tds ≤ 1000
  then Except.ok (cls ph tb tp tds)
  else Except.error PredictError.outOfRange

/-- One request field as seen by `app.py`: `none` = the key is missing from
the request, `some none` = present but not parseable as a float,
`some (some q)` = present with numeric value `q`. -/
abbrev ReqField := Option (Option ℚ)

/-- `float(data.get(name, 0))` in `predict` / `api_predict` of `app.py`:
a missing key is defaulted to `0` and parses; a nonnumeric value makes
`float` raise `ValueError` (embedded as `none`). -/
def getFloatField (field : ReqField) : Option ℚ :=
  match field with
  | none => some 0
  | some none => none
  | some (some q) => some q

/-- The four sensor fields of a prediction request. -/
structure PredictRequest where
  ph : ReqField
  turbidity : ReqField
  temperature : ReqField
  tds : ReqField
deriving DecidableEq

/-- The `/api/predict` handler of `app.py` (the form handler `/predict`
has the same parse-then-classify structure): parse the four fields with
`float(data.get(name, 0))` inside `try`, returning the caught exception as
an error response, otherwise return `water_model.predict`'s result. -/
def api_predict (cls : ℚ → ℚ → ℚ → ℚ → Classification)
    (req : PredictRequest) : Except PredictError Classification :=
  match getFloatField req.ph, getFloatField req.turbidity,
      getFloatField req.temperature, getFloatField req.tds with
  | some a, some b, some c, some d => water_model_predict cls a b c d
  | _, _, _, _ => Except.error PredictError.valueError

/-- A concrete opaque classifier, used to settle claims at concrete
inputs. -/
def clsConst : ℚ → ℚ → ℚ → ℚ → Classification :=
  fun _ _ _ _ => { label := QLabel.safeForReuse, confidence := 1
                   probSafe := 1, probTreat := 0, probBad := 0 }

/-- A request with every field missing. -/
def emptyRequest : PredictRequest :=
  { ph := none, turbidity := none, temperature := none, tds := none }

/-- A request whose pH field is present but not numeric. -/
def nonNumericRequest : PredictRequest :=
  { ph := some none, turbidity := none, temperature := none, tds := none }

/-! ### Helper lemmas about the tank dynamics -/

theorem tank_deficit_nonneg (cap storage inflow demand : ℚ) :
    0 ≤ (tank_apply_day cap storage inflow demand).deficit_today :=
  le_max_left _ _

theorem tank_after_nonneg (cap storage inflow demand : ℚ) :
    0 ≤ (tank_apply_day cap storage inflow demand).storage_after := by
  unfold tank_apply_day
  have h := min_le_left (if storage + inflow > cap then cap else storage + inflow) demand
  simp only
  linarith

theorem tank_after_le_cap (cap storage inflow demand : ℚ)
    (hs : 0 ≤ storage) (hi : 0 ≤ inflow) (hd : 0 ≤ demand) (hc : 0 ≤ cap) :
    (tank_apply_day cap storage inflow demand).storage_after ≤ cap := by
  unfold tank_apply_day
  simp only
  split
  case isTrue h =>
    have h2 : 0 ≤ min cap demand := le_min hc hd
    linarith
  case isFalse h =>
    have h2 : 0 ≤ min (storage + inflow) demand := le_min (by linarith) hd
    linarith

theorem tank_conservation (cap storage inflow demand : ℚ) :
    (tank_apply_day cap storage inflow demand).storage_after
      + (demand - (tank_apply_day cap storage inflow demand).deficit_today)
      ≤ storage + inflow := by
  unfold tank_apply_day
  simp only
  split
  case isTrue h =>
    have h1 : min cap demand ≤ demand := min_le_right _ _
    have h2 : max 0 (demand - min cap demand) = demand - min cap demand :=
      max_eq_right (by linarith)
    rw [h2]; linarith
  case isFalse h =>
    have h1 : min (storage + inflow) demand ≤ demand := min_le_right _ _
    have h2 : max 0 (demand - min (storage + inflow) demand)
        = demand - min (storage + inflow) demand := max_eq_right (by linarith)
    rw [h2]; linarith

theorem tank_overflow_add (cap storage inflow demand : ℚ) :
    (tank_apply_day cap storage inflow demand).overflow_add
      = max 0 (storage + inflow - cap) := by
  unfold tank_apply_day
  simp only
  split
  case isTrue h => rw [max_eq_right (by linarith)]
  case isFalse h => rw [max_eq_left (by linarith)]

/-! ### Helper lemmas about the rainfall model and one day of the loop -/

theorem get_monthly_rainfall_fst (g : ℕ → ℕ → ℚ) (d : ℕ) (b : ℚ) (s : RNGState) :
    (get_monthly_rainfall g d b s).1
      = max 0 (b * (MONTHLY_RAINFALL (month_of_day d) / 5) * g s.1 s.2) := rfl

theorem get_monthly_rainfall_nonneg (g : ℕ → ℕ → ℚ) (d : ℕ) (b : ℚ) (s : RNGState) :
    0 ≤ (get_monthly_rainfall g d b s).1 :=
  le_max_left _ _

theorem get_monthly_rainfall_snd (g : ℕ → ℕ → ℚ) (d : ℕ) (b : ℚ) (s : RNGState) :
    (get_monthly_rainfall g d b s).2 = (s.1, s.2 + 1) := rfl

theorem stepDay_rain_nonneg (g : ℕ → ℕ → ℚ) (c : Config) (d : ℕ) (s : CoreSt)
    (hv : ValidConfig c) : 0 ≤ (stepDay g c d s).2.rainfall_L := by
  obtain ⟨h1, h2, h3, h4, h5, h6, h7, h8, h9, h10, h11, h12, h13, h14, h15⟩ := hv
  unfold stepDay calculate_rainwater
  exact mul_nonneg (mul_nonneg (get_monthly_rainfall_nonneg _ _ _ _) h1) h3

theorem stepDay_grey_nonneg (g : ℕ → ℕ → ℚ) (c : Config) (d : ℕ) (s : CoreSt)
    (hv : ValidConfig c) : 0 ≤ (stepDay g c d s).2.greywater_L := by
  obtain ⟨h1, h2, h3, h4, h5, h6, h7, h8, h9, h10, h11, h12, h13, h14, h15⟩ := hv
  unfold stepDay calculate_greywater
  exact mul_nonneg (mul_nonneg (mul_nonneg h5 h6) h7) h9

theorem stepDay_treated_nonneg (g : ℕ → ℕ → ℚ) (c : Config) (d : ℕ) (s : CoreSt)
    (hv : ValidConfig c) : 0 ≤ (stepDay g c d s).2.treated_L := by
  have hr := stepDay_rain_nonneg g c d s hv
  have hg := stepDay_grey_nonneg g c d s hv
  obtain ⟨h1, h2, h3, h4, h5, h6, h7, h8, h9, h10, h11, h12, h13, h14, h15⟩ := hv
  unfold stepDay apply_treatment at *
  exact mul_nonneg (by linarith) h11

theorem stepDay_demand_nonneg (c : Config) (hv : ValidConfig c) :
    0 ≤ c.household_size * c.daily_water_use_L := by
  obtain ⟨h1, h2, h3, h4, h5, h6, h7, h8, h9, h10, h11, h12, h13, h14, h15⟩ := hv
  exact mul_nonneg h5 h6

theorem stepDay_fst_storage (g : ℕ → ℕ → ℚ) (c : Config) (d : ℕ) (s : CoreSt) :
    (stepDay g c d s).1.storage = (stepDay g c d s).2.storage_L := rfl

theorem stepDay_storage_eq_tank (g : ℕ → ℕ → ℚ) (c : Config) (d : ℕ) (s : CoreSt) :
    (stepDay g c d s).2.storage_L
      = (tank_apply_day c.storage_capacity_L s.storage
          (stepDay g c d s).2.treated_L
          (c.household_size * c.daily_water_use_L)).storage_after := rfl

theorem stepDay_deficit_eq_tank (g : ℕ → ℕ → ℚ) (c : Config) (d : ℕ) (s : CoreSt) :
    (stepDay g c d s).2.deficit_L
      = (tank_apply_day c.storage_capacity_L s.storage
          (stepDay g c d s).2.treated_L
          (c.household_size * c.daily_water_use_L)).deficit_today := rfl

theorem stepDay_fst_overflow (g : ℕ → ℕ → ℚ) (c : Config) (d : ℕ) (s : CoreSt) :
    (stepDay g c d s).1.total_overflow
      = s.total_overflow
        + max 0 (s.storage + (stepDay g c d s).2.treated_L - c.storage_capacity_L) := by
  rw [show (stepDay g c d s).1.total_overflow
      = s.total_overflow
        + (tank_apply_day c.storage_capacity_L s.storage
            (stepDay g c d s).2.treated_L
            (c.household_size * c.daily_water_use_L)).overflow_add from rfl]
  rw [tank_overflow_add]

theorem stepDay_fst_rng (g : ℕ → ℕ → ℚ) (c : Config) (d : ℕ) (s : CoreSt) :
    (stepDay g c d s).1.rng = (s.rng.1, s.rng.2 + 1) := rfl

theorem stepDay_fst_day (g : ℕ → ℕ → ℚ) (c : Config) (d : ℕ) (s : CoreSt) :
    (stepDay g c d s).2.day = d := rfl

theorem stepDay_totals_le (g : ℕ → ℕ → ℚ) (c : Config) (d : ℕ) (s : CoreSt)
    (hv : ValidConfig c) :
    s.total_rainwater ≤ (stepDay g c d s).1.total_rainwater
    ∧ s.total_greywater ≤ (stepDay g c d s).1.total_greywater
    ∧ s.total_treated ≤ (stepDay g c d s).1.total_treated
    ∧ s.total_demand ≤ (stepDay g c d s).1.total_demand
    ∧ s.total_deficit ≤ (stepDay g c d s).1.total_deficit := by
  have hr := stepDay_rain_nonneg g c d s hv
  have hg := stepDay_grey_nonneg g c d s hv
  have ht := stepDay_treated_nonneg g c d s hv
  have hd := stepDay_demand_nonneg c hv
  have hdef : 0 ≤ (stepDay g c d s).2.deficit_L := by
    rw [stepDay_deficit_eq_tank]; exact tank_deficit_nonneg _ _ _ _
  have e1 : (stepDay g c d s).1.total_rainwater
      = s.total_rainwater + (stepDay g c d s).2.rainfall_L := rfl
  have e2 : (stepDay g c d s).1.total_greywater
      = s.total_greywater + (stepDay g c d s).2.greywater_L := rfl
  have e3 : (stepDay g c d s).1.total_treated
      = s.total_treated + (stepDay g c d s).2.treated_L := rfl
  have e4 : (stepDay g c d s).1.total_demand
      = s.total_demand + c.household_size * c.daily_water_use_L := rfl
  have e5 : (stepDay g c d s).1.total_deficit
      = s.total_deficit + (stepDay g c d s).2.deficit_L := rfl
  rw [e1, e2, e3, e4, e5]
  refine ⟨by linarith, by linarith, by linarith, by linarith, by linarith⟩

/-! ### Helper lemmas about the day loop -/

theorem runDays_zero (g : ℕ → ℕ → ℚ) (c : Config) (d0 : ℕ) (s : CoreSt) :
    runDays g c d0 0 s = (s, []) := rfl

theorem runDays_succ (g : ℕ → ℕ → ℚ) (c : Config) (d0 n : ℕ) (s : CoreSt) :
    runDays g c d0 (n + 1) s
      = ((runDays g c (d0 + 1) n (stepDay g c d0 s).1).1,
         (stepDay g c d0 s).2 :: (runDays g c (d0 + 1) n (stepDay g c d0 s).1).2) := rfl

theorem runDays_length (g : ℕ → ℕ → ℚ) (c : Config) :
    ∀ (n d0 : ℕ) (s : CoreSt), (runDays g c d0 n s).2.length = n := by
  intro n
  induction n with
  | zero => intro d0 s; rfl
  | succ m ih =>
    intro d0 s
    rw [runDays_succ]
    simp [ih]

theorem runDays_map_day (g : ℕ → ℕ → ℚ) (c : Config) :
    ∀ (n d0 : ℕ) (s : CoreSt),
      (runDays g c d0 n s).2.map DayRec.day = List.range' d0 n := by
  intro n
  induction n with
  | zero => intro d0 s; rfl
  | succ m ih =>
    intro d0 s
    rw [runDays_succ, List.range'_succ]
    simp [ih, stepDay_fst_day]

theorem runDays_total_demand (g : ℕ → ℕ → ℚ) (c : Config) :
    ∀ (n d0 : ℕ) (s : CoreSt),
      (runDays g c d0 n s).1.total_demand
        = s.total_demand + n * (c.household_size * c.daily_water_use_L) := by
  intro n
  induction n with
  | zero => intro d0 s; simp [runDays_zero]
  | succ m ih =>
    intro d0 s
    rw [runDays_succ]
    simp only [ih]
    rw [show (stepDay g c d0 s).1.total_demand
        = s.total_demand + c.household_size * c.daily_water_use_L from rfl]
    push_cast
    ring

theorem runDays_rng (g : ℕ → ℕ → ℚ) (c : Config) :
    ∀ (n d0 : ℕ) (s : CoreSt),
      (runDays g c d0 n s).1.rng = (s.rng.1, s.rng.2 + n) := by
  intro n
  induction n with
  | zero => intro d0 s; rfl
  | succ m ih =>
    intro d0 s
    rw [runDays_succ]
    rw [ih (d0 + 1) (stepDay g c d0 s).1, stepDay_fst_rng]
    simp [Prod.ext_iff]
    omega

theorem runDays_snoc (g : ℕ → ℕ → ℚ) (c : Config) :
    ∀ (n d0 : ℕ) (s : CoreSt),
      runDays g c d0 (n + 1) s
        = ((stepDay g c (d0 + n) (runDays g c d0 n s).1).1,
           (runDays g c d0 n s).2
             ++ [(stepDay g c (d0 + n) (runDays g c d0 n s).1).2]) := by
  intro n
  induction n with
  | zero =>
    intro d0 s
    rw [runDays_succ]
    simp [runDays_zero]
  | succ m ih =>
    intro d0 s
    rw [runDays_succ g c d0 (m + 1) s, ih (d0 + 1) (stepDay g c d0 s).1,
      runDays_succ g c d0 m s]
    rw [show d0 + 1 + m = d0 + (m + 1) from by omega]
    simp

theorem runDays_totals_le (g : ℕ → ℕ → ℚ) (c : Config) (hv : ValidConfig c) :
    ∀ (n d0 : ℕ) (s : CoreSt),
      s.total_rainwater ≤ (runDays g c d0 n s).1.total_rainwater
      ∧ s.total_greywater ≤ (runDays g c d0 n s).1.total_greywater
      ∧ s.total_treated ≤ (runDays g c d0 n s).1.total_treated
      ∧ s.total_demand ≤ (runDays g c d0 n s).1.total_demand
      ∧ s.total_deficit ≤ (runDays g c d0 n s).1.total_deficit := by
  intro n
  induction n with
  | zero => intro d0 s; simp [runDays_zero]
  | succ m ih =>
    intro d0 s
    have h1 := stepDay_totals_le g c d0 s hv
    have h2 := ih (d0 + 1) (stepDay g c d0 s).1
    rw [runDays_succ]
    exact ⟨le_trans h1.1 h2.1, le_trans h1.2.1 h2.2.1,
      le_trans h1.2.2.1 h2.2.2.1, le_trans h1.2.2.2.1 h2.2.2.2.1,
      le_trans h1.2.2.2.2 h2.2.2.2.2⟩

theorem runDays_storage_inv (g : ℕ → ℕ → ℚ) (c : Config) (hv : ValidConfig c) :
    ∀ (n d0 : ℕ) (s : CoreSt), 0 ≤ s.storage →
      (0 ≤ (runDays g c d0 n s).1.storage
        ∧ (runDays g c d0 n s).1.storage ≤ c.storage_capacity_L
        ∨ n = 0)
      ∧ ∀ r ∈ (runDays g c d0 n s).2,
          0 ≤ r.storage_L ∧ r.storage_L ≤ c.storage_capacity_L := by
  intro n
  induction n with
  | zero =>
    intro d0 s _
    exact ⟨Or.inr rfl, by simp [runDays_zero]⟩
  | succ m ih =>
    intro d0 s hs
    have hcap : 0 ≤ c.storage_capacity_L := hv.2.2.2.2.2.2.2.2.2.2.2.2.1
    have ht := stepDay_treated_nonneg g c d0 s hv
    have hd := stepDay_demand_nonneg c hv
    have hafter0 : 0 ≤ (stepDay g c d0 s).2.storage_L := by
      rw [stepDay_storage_eq_tank]; exact tank_after_nonneg _ _ _ _
    have haftercap : (stepDay g c d0 s).2.storage_L ≤ c.storage_capacity_L := by
      rw [stepDay_storage_eq_tank]; exact tank_after_le_cap _ _ _ _ hs ht hd hcap
    have hstep0 : 0 ≤ (stepDay g c d0 s).1.storage := by
      rw [stepDay_fst_storage]; exact hafter0
    have ih2 := ih (d0 + 1) (stepDay g c d0 s).1 hstep0
    rw [runDays_succ]
    constructor
    · rcases ih2.1 with h | h
      · exact Or.inl h
      · left
        rw [h, runDays_zero]
        rw [stepDay_fst_storage]
        exact ⟨hafter0, haftercap⟩
    · intro r hr
      rcases List.mem_cons.mp hr with h | h
      · subst h; exact ⟨hafter0, haftercap⟩
      · exact ih2.2 r h

theorem runDays_chain (g : ℕ → ℕ → ℚ) (c : Config) (hv : ValidConfig c) :
    ∀ (n d0 : ℕ) (s : CoreSt), 0 ≤ s.storage →
      ChainInv c s.storage (runDays g c d0 n s).2 := by
  intro n
  induction n with
  | zero => intro d0 s _; rw [runDays_zero]; trivial
  | succ m ih =>
    intro d0 s hs
    have hcap : 0 ≤ c.storage_capacity_L := hv.2.2.2.2.2.2.2.2.2.2.2.2.1
    have ht := stepDay_treated_nonneg g c d0 s hv
    have hd := stepDay_demand_nonneg c hv
    have hafter0 : 0 ≤ (stepDay g c d0 s).2.storage_L := by
      rw [stepDay_storage_eq_tank]; exact tank_after_nonneg _ _ _ _
    have haftercap : (stepDay g c d0 s).2.storage_L ≤ c.storage_capacity_L := by
      rw [stepDay_storage_eq_tank]; exact tank_after_le_cap _ _ _ _ hs ht hd hcap
    have hcons : (stepDay g c d0 s).2.storage_L
        + (c.household_size * c.daily_water_use_L - (stepDay g c d0 s).2.deficit_L)
        ≤ s.storage + (stepDay g c d0 s).2.treated_L := by
      rw [stepDay_storage_eq_tank, stepDay_deficit_eq_tank]
      exact tank_conservation _ _ _ _
    have hstep0 : 0 ≤ (stepDay g c d0 s).1.storage := by
      rw [stepDay_fst_storage]; exact hafter0
    have ih2 := ih (d0 + 1) (stepDay g c d0 s).1 hstep0
    rw [runDays_succ]
    unfold ChainInv
    refine ⟨⟨hcons, hafter0, haftercap⟩, ?_⟩
    rw [← stepDay_fst_storage]
    exact ih2

/-! ### Helper lemmas about banker's rounding -/

theorem round_half_even_cases (x : ℚ) :
    round_half_even x = ⌊x⌋ ∨ round_half_even x = ⌊x⌋ + 1 := by
  simp only [round_half_even]
  split
  · exact Or.inl rfl
  split
  · exact Or.inr rfl
  split
  · exact Or.inl rfl
  · exact Or.inr rfl

theorem round_half_even_nonneg (x : ℚ) (hx : 0 ≤ x) : 0 ≤ round_half_even x := by
  have hf : (0 : ℤ) ≤ ⌊x⌋ := Int.floor_nonneg.mpr hx
  rcases round_half_even_cases x with h | h <;> omega

theorem round_half_even_le (x : ℚ) (B : ℤ) (h : x ≤ (B : ℚ)) :
    round_half_even x ≤ B := by
  simp only [round_half_even]
  split
  case isTrue h1 =>
    have := Int.floor_le_floor h
    rwa [Int.floor_intCast] at this
  case isFalse h1 =>
    push_neg at h1
    have hfl : (⌊x⌋ : ℚ) ≤ x := Int.floor_le x
    have hlt : ⌊x⌋ < B := by
      have h2 : (⌊x⌋ : ℚ) + 1/2 ≤ x := by linarith
      have h3 : (⌊x⌋ : ℚ) < (B : ℚ) := by linarith
      exact_mod_cast h3
    split
    · omega
    split <;> omega

theorem round_half_even_intCast (m : ℤ) : round_half_even (m : ℚ) = m := by
  unfold round_half_even
  rw [Int.floor_intCast]
  rw [if_pos]
  norm_num

theorem pyRound_nonneg (x : ℚ) (n : ℕ) (hx : 0 ≤ x) : 0 ≤ pyRound x n := by
  unfold pyRound
  have h1 : (0 : ℤ) ≤ round_half_even (x * 10 ^ n) :=
    round_half_even_nonneg _ (mul_nonneg hx (by positivity))
  have h2 : (0 : ℚ) ≤ (round_half_even (x * 10 ^ n) : ℚ) := by exact_mod_cast h1
  positivity

theorem pyRound_le (x : ℚ) (n : ℕ) (B : ℤ) (h : x ≤ (B : ℚ)) :
    pyRound x n ≤ (B : ℚ) := by
  have h10 : (0 : ℚ) < 10 ^ n := by positivity
  have h1 : x * 10 ^ n ≤ ((B * 10 ^ n : ℤ) : ℚ) := by
    push_cast
    exact mul_le_mul_of_nonneg_right h (le_of_lt h10)
  have h2 := round_half_even_le _ _ h1
  unfold pyRound
  rw [div_le_iff₀ h10]
  calc (round_half_even (x * 10 ^ n) : ℚ) ≤ ((B * 10 ^ n : ℤ) : ℚ) := by exact_mod_cast h2
    _ = (B : ℚ) * 10 ^ n := by push_cast; ring

theorem pyRound_intCast (m : ℤ) (n : ℕ) : pyRound (m : ℚ) n = (m : ℚ) := by
  unfold pyRound
  have h1 : (m : ℚ) * 10 ^ n = ((m * 10 ^ n : ℤ) : ℚ) := by push_cast; ring
  rw [h1, round_half_even_intCast]
  have h10 : (10 : ℚ) ^ n ≠ 0 := by positivity
  push_cast
  field_simp

/-! ### Helper lemmas about `simulate` -/

theorem simulate_fst_none (g : ℕ → ℕ → ℚ) (c : Config) (rng : RNGState)
    (h : (runDays g c 1 c.simulation_days (initSt c)).1.total_demand = 0) :
    (simulate g c rng).1 = none := by
  simp only [simulate]
  rw [if_pos h]

theorem simulate_fst_some (g : ℕ → ℕ → ℚ) (c : Config) (rng : RNGState)
    (h : (runDays g c 1 c.simulation_days (initSt c)).1.total_demand ≠ 0) :
    (simulate g c rng).1 = some
      { total_rainwater_L :=
          pyRound (runDays g c 1 c.simulation_days (initSt c)).1.total_rainwater 0
        total_greywater_L :=
          pyRound (runDays g c 1 c.simulation_days (initSt c)).1.total_greywater 0
        total_treated_L :=
          pyRound (runDays g c 1 c.simulation_days (initSt c)).1.total_treated 0
        total_demand_L :=
          pyRound (runDays g c 1 c.simulation_days (initSt c)).1.total_demand 0
        total_deficit_L :=
          pyRound (runDays g c 1 c.simulation_days (initSt c)).1.total_deficit 0
        total_overflow_L :=
          pyRound (runDays g c 1 c.simulation_days (initSt c)).1.total_overflow 0
        supply_rate_pct :=
          pyRound ((runDays g c 1 c.simulation_days (initSt c)).1.total_treated
            / (runDays g c 1 c.simulation_days (initSt c)).1.total_demand * 100) 1
        annual_cost_saved_INR :=
          pyRound ((runDays g c 1 c.simulation_days (initSt c)).1.total_treated
            * c.cost_per_litre_INR) 2
        co2_offset_kg :=
          pyRound ((runDays g c 1 c.simulation_days (initSt c)).1.total_treated
            * (1/1000) * (1/2)) 1
        avg_daily_recovery_L :=
          pyRound ((runDays g c 1 c.simulation_days (initSt c)).1.total_treated
            / (c.simulation_days : ℚ)) 0
        self_sufficiency_pct :=
          pyRound (min 100 ((runDays g c 1 c.simulation_days (initSt c)).1.total_treated
            / (runDays g c 1 c.simulation_days (initSt c)).1.total_demand * 100)) 1
        daily_log := (runDays g c 1 c.simulation_days (initSt c)).2 } := by
  simp only [simulate]
  rw [if_neg h]

theorem simulate_snd (g : ℕ → ℕ → ℚ) (c : Config) (rng : RNGState) :
    (simulate g c rng).2 = (42, c.simulation_days) := by
  have h := runDays_rng g c c.simulation_days 1 (initSt c)
  have h0 : (initSt c).rng = (42, 0) := rfl
  rw [h0] at h
  simp only [simulate]
  split <;> simp [h]

theorem simulate_ignores_rng (g : ℕ → ℕ → ℚ) (c : Config) (r1 r2 : RNGState) :
    simulate g c r1 = simulate g c r2 := rfl

theorem simulate_total_demand_closed (g : ℕ → ℕ → ℚ) (c : Config) :
    (runDays g c 1 c.simulation_days (initSt c)).1.total_demand
      = (c.simulation_days : ℚ) * (c.household_size * c.daily_water_use_L) := by
  rw [runDays_total_demand]
  simp [initSt]

/-! ### Validity of the concrete configurations -/

theorem valid_scenarioConfig : ValidConfig scenarioConfig := by
  unfold ValidConfig scenarioConfig
  norm_num

theorem valid_dryConfig : ValidConfig dryConfig := by
  unfold ValidConfig dryConfig
  norm_num

/-! ### Claim theorems -/

/-- Claim C10: the result of `simulate` depends only on the configuration:
the body reseeds the global generator with the constant 42 at the start of
every call, so the returned result is the same for any two incoming global
generator states (there is no seed parameter), and the generator is left
in the state reached from seed 42 after one gauss draw per simulated
day. -/
theorem c10_result_depends_only_on_config (g : ℕ → ℕ → ℚ) (c : Config)
    (r1 r2 : RNGState) :
    (simulate g c r1).1 = (simulate g c r2).1
    ∧ (simulate g c r1).2 = (42, c.simulation_days) :=
  ⟨congrArg Prod.fst (simulate_ignores_rng g c r1 r2), simulate_snd g c r1⟩

/-- Claim C5, counterexample: the pseudo-random stream is not run-scoped:
a call to `simulate` overwrites and advances the caller's shared global
generator state, here from `(7, 3)` to `(42, 1)`. -/
theorem c5_counterexample :
    (simulate ones oneDayConfig (7, 3)).2 = (42, 1)
    ∧ ((42, 1) : RNGState) ≠ ((7, 3) : RNGState) := by
  refine ⟨?_, by decide⟩
  rw [simulate_snd]
  rfl

/-- Claim C5, amended: two invocations of `simulate` with identical config
produce identical outputs regardless of the incoming global generator
state (hence regardless of any seed the caller intended to supply), because
the body reseeds the shared process-global stream with the constant 42;
the stream is that global generator, which the call leaves at
`(42, simulation_days)`, not a run-scoped instance. -/
theorem c5_determinism_via_global_reseed (g : ℕ → ℕ → ℚ) (c : Config)
    (r1 r2 : RNGState) :
    simulate g c r1 = simulate g c r2
    ∧ (simulate g c r1).2 = (42, c.simulation_days) :=
  ⟨simulate_ignores_rng g c r1 r2, simulate_snd g c r1⟩

/-- Claim C2: with `household_size = 0` the accumulated `total_demand` is
0, and the unguarded division `total_supply / total_demand` in `simulate`
raises `ZeroDivisionError` (embedded as `none`) instead of returning the
documented `supply_rate_pct = 0` fallback. -/
theorem c2_zero_demand_raises (g : ℕ → ℕ → ℚ) (rng : RNGState) :
    (simulate g zeroDemandConfig rng).1 = none := by
  apply simulate_fst_none
  rw [simulate_total_demand_closed]
  norm_num [zeroDemandConfig, scenarioConfig]

/-- Claim C6, counterexample: a configuration with negative catchment area
is outside the documented domain, yet `simulate` performs no validation
and returns a full `SimulationResult` for it. -/
theorem c6_counterexample :
    ¬ ValidConfig invalidConfig
    ∧ ((simulate ones invalidConfig (0, 0)).1).isSome = true := by
  constructor
  · unfold ValidConfig invalidConfig scenarioConfig
    norm_num
  · have hd : (runDays ones invalidConfig 1 invalidConfig.simulation_days
        (initSt invalidConfig)).1.total_demand ≠ 0 := by
      rw [simulate_total_demand_closed]
      norm_num [invalidConfig, scenarioConfig]
    rw [simulate_fst_some ones invalidConfig (0, 0) hd]
    rfl

/-- Claim C6, amended: `simulate` performs no configuration validation and
has no ConfigurationError: for any configuration — inside or outside the
documented domain — with at least one day and nonzero per-day demand, it
runs every day and returns a full `SimulationResult`. -/
theorem c6_no_validation (g : ℕ → ℕ → ℚ) (c : Config) (rng : RNGState)
    (h1 : 1 ≤ c.simulation_days)
    (h2 : c.household_size * c.daily_water_use_L ≠ 0) :
    ((simulate g c rng).1).isSome = true := by
  have hd : (runDays g c 1 c.simulation_days (initSt c)).1.total_demand ≠ 0 := by
    rw [simulate_total_demand_closed]
    exact mul_ne_zero (Nat.cast_ne_zero.mpr (by omega)) h2
  rw [simulate_fst_some g c rng hd]
  rfl

/-- Claim C6, witness: the amended theorem applied to the out-of-domain
configuration with negative catchment area. -/
theorem c6_witness :
    1 ≤ invalidConfig.simulation_days
    ∧ invalidConfig.household_size * invalidConfig.daily_water_use_L ≠ 0
    ∧ ((simulate ones invalidConfig (1, 5)).1).isSome = true :=
  ⟨by decide, by norm_num [invalidConfig, scenarioConfig],
    c6_no_validation ones invalidConfig (1, 5) (by decide)
      (by norm_num [invalidConfig, scenarioConfig])⟩

/-- Claim C3, counterexample: the code computes the month as
`min(12, max(1, day_of_year // 30 + 1))`, not the claimed
`clamp(1, 12, floor((day_of_year - 1) / 30) + 1)`: at `day_of_year = 30`
the code selects month 2 while the claimed formula gives month 1, and the
returned rainfall differs accordingly (base 5, unit noise: 4/5 vs 6/5). -/
theorem c3_counterexample :
    month_of_day 30 = 2
    ∧ specMonth 30 = 1
    ∧ month_of_day 30 ≠ specMonth 30
    ∧ (get_monthly_rainfall ones 30 5 (42, 0)).1 = 4/5
    ∧ max 0 ((5 : ℚ) * (MONTHLY_RAINFALL (specMonth 30) / 5) * 1) = 6/5 := by
  refine ⟨by decide, by decide, by decide, ?_, ?_⟩
  · rw [get_monthly_rainfall_fst]
    rw [show month_of_day 30 = 2 from by decide]
    show max 0 ((5 : ℚ) * (MONTHLY_RAINFALL 2 / 5) * 1) = 4/5
    rw [show MONTHLY_RAINFALL 2 = 8/10 from rfl]
    rw [max_eq_right (by norm_num)]
    norm_num
  · rw [show specMonth 30 = 1 from by decide,
      show MONTHLY_RAINFALL 1 = 12/10 from rfl]
    rw [max_eq_right (by norm_num)]
    norm_num

/-- Claim C3, amended: for `day_of_year ≥ 1` the code selects the month as
`clamp(1, 12, floor(day_of_year / 30) + 1)` — days 1..29 map to month 1,
each following 30-day block to the next month, and every day from 360 on
to month 12 — and the returned rainfall equals
`max(0, base * (month_factor / 5) * noise)` and is always nonnegative. -/
theorem c3_month_and_rainfall (g : ℕ → ℕ → ℚ) (s : RNGState) (base : ℚ)
    (day : ℕ) (h1 : 1 ≤ day) :
    (day ≤ 29 → month_of_day day = 1)
    ∧ (30 ≤ day → day ≤ 359 → month_of_day day = day / 30 + 1)
    ∧ (360 ≤ day → month_of_day day = 12)
    ∧ (get_monthly_rainfall g day base s).1
        = max 0 (base * (MONTHLY_RAINFALL (month_of_day day) / 5) * g s.1 s.2)
    ∧ 0 ≤ (get_monthly_rainfall g day base s).1 := by
  refine ⟨?_, ?_, ?_, get_monthly_rainfall_fst g day base s,
    get_monthly_rainfall_nonneg g day base s⟩
  · intro h
    unfold month_of_day
    omega
  · intro ha hb
    unfold month_of_day
    omega
  · intro h
    unfold month_of_day
    omega

/-- Claim C3, witness: the amended theorem applied at `day_of_year = 45`
with base 5 and the unit noise stream. -/
theorem c3_witness :
    1 ≤ 45
    ∧ ((45 ≤ 29 → month_of_day 45 = 1)
      ∧ (30 ≤ 45 → 45 ≤ 359 → month_of_day 45 = 45 / 30 + 1)
      ∧ (360 ≤ 45 → month_of_day 45 = 12)
      ∧ (get_monthly_rainfall ones 45 5 (42, 0)).1
          = max 0 (5 * (MONTHLY_RAINFALL (month_of_day 45) / 5)
              * ones ((42, 0) : RNGState).1 ((42, 0) : RNGState).2)
      ∧ 0 ≤ (get_monthly_rainfall ones 45 5 (42, 0)).1) :=
  ⟨by decide, c3_month_and_rainfall ones (42, 0) 5 45 (by decide)⟩

/-- Claim C4: the tank starts at 30% of capacity with cumulative overflow
and deficit 0; on every day the amount added to cumulative overflow is
exactly the excess `max(0, storage + treated - capacity)`; and the
recorded storage level stays within `[0, capacity]` across the run. -/
theorem c4_tank_invariant (g : ℕ → ℕ → ℚ) (c : Config) (hv : ValidConfig c) :
    (initSt c).storage = c.storage_capacity_L * (30/100)
    ∧ (initSt c).total_overflow = 0
    ∧ (initSt c).total_deficit = 0
    ∧ (∀ (d : ℕ) (s : CoreSt),
        (stepDay g c d s).1.total_overflow
          = s.total_overflow
            + max 0 (s.storage + (stepDay g c d s).2.treated_L
                - c.storage_capacity_L))
    ∧ (∀ r ∈ (runDays g c 1 c.simulation_days (initSt c)).2,
        0 ≤ r.storage_L ∧ r.storage_L ≤ c.storage_capacity_L) := by
  have hcap : 0 ≤ c.storage_capacity_L := hv.2.2.2.2.2.2.2.2.2.2.2.2.1
  have hinit : 0 ≤ (initSt c).storage := by
    show 0 ≤ c.storage_capacity_L * (30/100)
    exact mul_nonneg hcap (by norm_num)
  exact ⟨rfl, rfl, rfl, fun d s => stepDay_fst_overflow g c d s,
    (runDays_storage_inv g c hv c.simulation_days 1 (initSt c) hinit).2⟩

/-- Claim C4, witness: the invariant theorem applied to the scenario
configuration. -/
theorem c4_witness :
    ValidConfig scenarioConfig
    ∧ ((initSt scenarioConfig).storage
        = scenarioConfig.storage_capacity_L * (30/100)
      ∧ (initSt scenarioConfig).total_overflow = 0
      ∧ (initSt scenarioConfig).total_deficit = 0
      ∧ (∀ (d : ℕ) (s : CoreSt),
          (stepDay ones scenarioConfig d s).1.total_overflow
            = s.total_overflow
              + max 0 (s.storage + (stepDay ones scenarioConfig d s).2.treated_L
                  - scenarioConfig.storage_capacity_L))
      ∧ (∀ r ∈ (runDays ones scenarioConfig 1 scenarioConfig.simulation_days
            (initSt scenarioConfig)).2,
          0 ≤ r.storage_L ∧ r.storage_L ≤ scenarioConfig.storage_capacity_L)) :=
  ⟨valid_scenarioConfig, c4_tank_invariant ones scenarioConfig valid_scenarioConfig⟩

/-- Claim C1, counterexample: on a domain-valid configuration with no
inflow (zero area, zero greywater fraction, zero capacity) the first
simulated day has `storage_before = 0`, `treated_inflow = 0`,
`storage_after = 0` and `deficit_today = 675`, and
`storage_after + deficit_today ≤ storage_before + treated_inflow` fails:
`0 + 675 > 0 + 0`. -/
theorem c1_counterexample :
    ValidConfig dryConfig
    ∧ (initSt dryConfig).storage = 0
    ∧ (runDays ones dryConfig 1 1 (initSt dryConfig)).2
        = [{ day := 1, rainfall_L := 0, greywater_L := 0, treated_L := 0,
             storage_L := 0, deficit_L := 675 }]
    ∧ ¬ ((0 : ℚ) + 675 ≤ 0 + 0) := by
  refine ⟨valid_dryConfig, ?_, ?_, by norm_num⟩
  · show dryConfig.storage_capacity_L * (30/100) = 0
    norm_num [dryConfig]
  · rw [runDays_succ, runDays_zero]
    simp only [List.cons.injEq, and_true]
    simp [stepDay, get_monthly_rainfall, gaussDraw, calculate_rainwater,
      calculate_greywater, apply_treatment, tank_apply_day, initSt, dryConfig,
      month_of_day, MONTHLY_RAINFALL, ones, min_def, max_def]
    norm_num

/-- Claim C1, amended: the per-day conservation law holds with the
supplied volume (`demand - deficit_today`) in place of `deficit_today`:
for every valid configuration and every simulated day,
`storage_after + (demand - deficit_today) ≤ storage_before + treated_inflow`
and `0 ≤ storage_after ≤ capacity`. -/
theorem c1_conservation (g : ℕ → ℕ → ℚ) (c : Config) (hv : ValidConfig c) :
    ChainInv c (initSt c).storage
      (runDays g c 1 c.simulation_days (initSt c)).2 := by
  apply runDays_chain g c hv
  have hcap : 0 ≤ c.storage_capacity_L := hv.2.2.2.2.2.2.2.2.2.2.2.2.1
  show 0 ≤ c.storage_capacity_L * (30/100)
  exact mul_nonneg hcap (by norm_num)

/-- Claim C1, witness: the amended conservation theorem applied to the
no-inflow configuration of the counterexample. -/
theorem c1_witness :
    ValidConfig dryConfig
    ∧ ChainInv dryConfig (initSt dryConfig).storage
        (runDays ones dryConfig 1 dryConfig.simulation_days
          (initSt dryConfig)).2 :=
  ⟨valid_dryConfig, c1_conservation ones dryConfig valid_dryConfig⟩

/-- Claim C7: with the scenario configuration (30 days), for every noise
stream and every incoming generator state, `simulate` returns a result
whose day log has exactly 30 records with day indices 1..30 in order,
whose recorded storage level lies in [0, 40000] on every record, and whose
`total_demand_L` is 20250. -/
theorem c7_scenario (g : ℕ → ℕ → ℚ) (rng : RNGState) :
    ∃ r : SimResult, (simulate g scenarioConfig rng).1 = some r
      ∧ r.daily_log.length = 30
      ∧ r.daily_log.map DayRec.day = List.range' 1 30
      ∧ (∀ d ∈ r.daily_log, 0 ≤ d.storage_L ∧ d.storage_L ≤ 40000)
      ∧ r.total_demand_L = 20250 := by
  have hd : (runDays g scenarioConfig 1 scenarioConfig.simulation_days
      (initSt scenarioConfig)).1.total_demand = 20250 := by
    rw [simulate_total_demand_closed]
    norm_num [scenarioConfig]
  have hz : (runDays g scenarioConfig 1 scenarioConfig.simulation_days
      (initSt scenarioConfig)).1.total_demand ≠ 0 := by
    rw [hd]; norm_num
  have hinit : 0 ≤ (initSt scenarioConfig).storage := by
    show (0 : ℚ) ≤ scenarioConfig.storage_capacity_L * (30/100)
    norm_num [scenarioConfig]
  refine ⟨_, simulate_fst_some g scenarioConfig rng hz, ?_, ?_, ?_, ?_⟩
  · exact runDays_length g scenarioConfig scenarioConfig.simulation_days 1
      (initSt scenarioConfig)
  · exact runDays_map_day g scenarioConfig scenarioConfig.simulation_days 1
      (initSt scenarioConfig)
  · intro d hdmem
    exact (runDays_storage_inv g scenarioConfig valid_scenarioConfig
      scenarioConfig.simulation_days 1 (initSt scenarioConfig) hinit).2 d hdmem
  · show pyRound (runDays g scenarioConfig 1 scenarioConfig.simulation_days
        (initSt scenarioConfig)).1.total_demand 0 = 20250
    rw [hd]
    rw [show (20250 : ℚ) = ((20250 : ℤ) : ℚ) from by norm_num]
    rw [pyRound_intCast]

/-- Claim C8: for every valid configuration the cumulative rainwater,
greywater, treated, demand and deficit totals are non-decreasing from each
day of the loop to the next, and whenever `simulate` returns a result (in
particular whenever total demand is positive) its `self_sufficiency_pct`
lies in [0, 100]. -/
theorem c8_monotone_totals_and_bounded (g : ℕ → ℕ → ℚ) (c : Config)
    (rng : RNGState) (hv : ValidConfig c) :
    (∀ k : ℕ,
      (runDays g c 1 k (initSt c)).1.total_rainwater
          ≤ (runDays g c 1 (k + 1) (initSt c)).1.total_rainwater
        ∧ (runDays g c 1 k (initSt c)).1.total_greywater
          ≤ (runDays g c 1 (k + 1) (initSt c)).1.total_greywater
        ∧ (runDays g c 1 k (initSt c)).1.total_treated
          ≤ (runDays g c 1 (k + 1) (initSt c)).1.total_treated
        ∧ (runDays g c 1 k (initSt c)).1.total_demand
          ≤ (runDays g c 1 (k + 1) (initSt c)).1.total_demand
        ∧ (runDays g c 1 k (initSt c)).1.total_deficit
          ≤ (runDays g c 1 (k + 1) (initSt c)).1.total_deficit)
    ∧ ∀ r : SimResult, (simulate g c rng).1 = some r →
        0 ≤ r.self_sufficiency_pct ∧ r.self_sufficiency_pct ≤ 100 := by
  constructor
  · intro k
    rw [runDays_snoc g c k 1 (initSt c)]
    exact stepDay_totals_le g c (1 + k) (runDays g c 1 k (initSt c)).1 hv
  · intro r hr
    by_cases hz : (runDays g c 1 c.simulation_days (initSt c)).1.total_demand = 0
    · rw [simulate_fst_none g c rng hz] at hr
      exact absurd hr (by simp)
    · rw [simulate_fst_some g c rng hz] at hr
      rcases Option.some.inj hr with rfl
      have htot := runDays_totals_le g c hv c.simulation_days 1 (initSt c)
      have ht0 : (0 : ℚ)
          ≤ (runDays g c 1 c.simulation_days (initSt c)).1.total_treated := by
        have h := htot.2.2.1
        have h0 : (initSt c).total_treated = 0 := rfl
        rw [h0] at h
        exact h
      have hd0 : (0 : ℚ)
          ≤ (runDays g c 1 c.simulation_days (initSt c)).1.total_demand := by
        have h := htot.2.2.2.1
        have h0 : (initSt c).total_demand = 0 := rfl
        rw [h0] at h
        exact h
      have hdpos : (0 : ℚ)
          < (runDays g c 1 c.simulation_days (initSt c)).1.total_demand :=
        lt_of_le_of_ne hd0 (Ne.symm hz)
      have hrate0 : (0 : ℚ)
          ≤ (runDays g c 1 c.simulation_days (initSt c)).1.total_treated
            / (runDays g c 1 c.simulation_days (initSt c)).1.total_demand * 100 :=
        mul_nonneg (div_nonneg ht0 (le_of_lt hdpos)) (by norm_num)
      have hmin0 : (0 : ℚ)
          ≤ min 100 ((runDays g c 1 c.simulation_days (initSt c)).1.total_treated
            / (runDays g c 1 c.simulation_days (initSt c)).1.total_demand * 100) :=
        le_min (by norm_num) hrate0
      have hmin100 :
          min (100 : ℚ) ((runDays g c 1 c.simulation_days (initSt c)).1.total_treated
            / (runDays g c 1 c.simulation_days (initSt c)).1.total_demand * 100)
          ≤ 100 := min_le_left _ _
      constructor
      · exact pyRound_nonneg _ _ hmin0
      · have h := pyRound_le
          (min 100 ((runDays g c 1 c.simulation_days (initSt c)).1.total_treated
            / (runDays g c 1 c.simulation_days (initSt c)).1.total_demand * 100)) 1
          100 (by exact_mod_cast hmin100)
        exact_mod_cast h

/-- Claim C8, witness: the theorem applied to the scenario configuration
with the unit noise stream. -/
theorem c8_witness :
    ValidConfig scenarioConfig
    ∧ ((∀ k : ℕ,
        (runDays ones scenarioConfig 1 k (initSt scenarioConfig)).1.total_rainwater
            ≤ (runDays ones scenarioConfig 1 (k + 1)
                (initSt scenarioConfig)).1.total_rainwater
          ∧ (runDays ones scenarioConfig 1 k (initSt scenarioConfig)).1.total_greywater
            ≤ (runDays ones scenarioConfig 1 (k + 1)
                (initSt scenarioConfig)).1.total_greywater
          ∧ (runDays ones scenarioConfig 1 k (initSt scenarioConfig)).1.total_treated
            ≤ (runDays ones scenarioConfig 1 (k + 1)
                (initSt scenarioConfig)).1.total_treated
          ∧ (runDays ones scenarioConfig 1 k (initSt scenarioConfig)).1.total_demand
            ≤ (runDays ones scenarioConfig 1 (k + 1)
                (initSt scenarioConfig)).1.total_demand
          ∧ (runDays ones scenarioConfig 1 k (initSt scenarioConfig)).1.total_deficit
            ≤ (runDays ones scenarioConfig 1 (k + 1)
                (initSt scenarioConfig)).1.total_deficit)
      ∧ ∀ r : SimResult, (simulate ones scenarioConfig (0, 0)).1 = some r →
          0 ≤ r.self_sufficiency_pct ∧ r.self_sufficiency_pct ≤ 100) :=
  ⟨valid_scenarioConfig,
    c8_monotone_totals_and_bounded ones scenarioConfig (0, 0) valid_scenarioConfig⟩

/-- Claim C9, counterexample: a request with all four sensor fields
missing is not rejected: every field is silently coerced to the default 0,
which is in the documented range, and the request is classified
successfully — an outcome distinguishable from neither error is
produced. -/
theorem c9_counterexample :
    api_predict clsConst emptyRequest = Except.ok (clsConst 0 0 0 0)
    ∧ api_predict clsConst emptyRequest
        ≠ Except.error PredictError.valueError
    ∧ api_predict clsConst emptyRequest
        ≠ Except.error PredictError.outOfRange := by
  have h : api_predict clsConst emptyRequest = Except.ok (clsConst 0 0 0 0) := by
    show water_model_predict clsConst 0 0 0 0 = Except.ok (clsConst 0 0 0 0)
    unfold water_model_predict
    rw [if_pos]
    norm_num
  refine ⟨h, ?_, ?_⟩
  · rw [h]; simp
  · rw [h]; simp

/-- Claim C9, amended: a request with a present-but-non-numeric field is
answered with the `ValueError` error result, and a fully numeric request
with an out-of-documented-range value is answered with the classifier's
out-of-range error result — both distinguishable from a successful
classification; however a request with missing fields is silently coerced
to the default value 0 per field and classified as if 0 had been
supplied. -/
theorem c9_error_handling (cls : ℚ → ℚ → ℚ → ℚ → Classification)
    (req : PredictRequest) :
    ((req.ph = some none ∨ req.turbidity = some none
        ∨ req.temperature = some none ∨ req.tds = some none) →
      api_predict cls req = Except.error PredictError.valueError)
    ∧ (∀ a b c d : ℚ,
        req.ph = some (some a) → req.turbidity = some (some b) →
        req.temperature = some (some c) → req.tds = some (some d) →
        ¬ (0 ≤ a ∧ a ≤ 14 ∧ 0 ≤ b ∧ b ≤ 100 ∧ 0 ≤ c ∧ c ≤ 40
            ∧ 0 ≤ d ∧ d ≤ 1000) →
        api_predict cls req = Except.error PredictError.outOfRange)
    ∧ api_predict cls emptyRequest = water_model_predict cls 0 0 0 0 := by
  refine ⟨?_, ?_, rfl⟩
  · intro h
    rcases h with h | h | h | h
    · simp [api_predict, h, getFloatField]
    · cases hA : getFloatField req.ph <;>
        simp [api_predict, hA, h, getFloatField]
    · cases hA : getFloatField req.ph <;>
        cases hB : getFloatField req.turbidity <;>
        simp [api_predict, hA, hB, h, getFloatField]
    · cases hA : getFloatField req.ph <;>
        cases hB : getFloatField req.turbidity <;>
        cases hC : getFloatField req.temperature <;>
        simp [api_predict, hA, hB, hC, h, getFloatField]
  · intro a b c d ha hb hc hd hrange
    have h : api_predict cls req = water_model_predict cls a b c d := by
      simp [api_predict, ha, hb, hc, hd, getFloatField]
    rw [h]
    unfold water_model_predict
    rw [if_neg hrange]

/-- Claim C9, witness: the amended theorem applied to a request with a
non-numeric pH field, and to the all-missing request. -/
theorem c9_witness :
    (nonNumericRequest.ph = some none ∨ nonNumericRequest.turbidity = some none
      ∨ nonNumericRequest.temperature = some none
      ∨ nonNumericRequest.tds = some none)
    ∧ api_predict clsConst nonNumericRequest
        = Except.error PredictError.valueError
    ∧ api_predict clsConst emptyRequest = water_model_predict clsConst 0 0 0 0 :=
  ⟨Or.inl rfl,
    (c9_error_handling clsConst nonNumericRequest).1 (Or.inl rfl),
    (c9_error_handling clsConst emptyRequest).2.2⟩

end FreshWater
